import Mathlib

/-!
Verification of the cpanbaidu upload pipeline against its specification.

The definitions below are a shallow embedding of the Python source under
src/src/cpanbaidu/, primarily Upload.py (the chunked-upload pipeline),
Auth.py (the authenticated request gateway) and model/Base.py (the unified
response model).  Pure computations become Lean functions; remote calls are
made explicit by passing their responses in as inputs and recording the
calls actually issued as a trace; Python exceptions become Except values or
an explicit raised constructor.  One module imported by Upload.py
(utils/md5.py) is absent from the source tree; its single relevant function
is modelled from the specification and marked as such in its doc comment.
-/

namespace CPanBaidu

/-- Byte of a local file, modelled as a natural number. -/
abbrev Byte := Nat

/-- JSON-object-like dictionary with string values, as handled by the client. -/
abbrev Dict := List (String × String)

/-! ### Glob matching (Python fnmatch on a POSIX system)

Used by should_exclude in UploadFile.upload_folder (Upload.py lines 604-618).
-/

/-- Scan a glob character class for its closing bracket: returns the class
contents and the remainder of the pattern, or none when the bracket is
unclosed (mirroring how fnmatch.translate searches for the closing bracket
of a bracket expression). -/
def scanClose : List Char → Option (List Char × List Char)
  | [] => none
  | ']' :: rest => some ([], rest)
  | c :: rest =>
    match scanClose rest with
    | none => none
    | some (content, after) => some (c :: content, after)

/-- Split a bracket expression just after its opening bracket: returns the
negation flag, the class contents and the rest of the pattern.  A leading
exclamation mark negates the class; a closing bracket immediately after the
opening bracket (or after the negation mark) is a literal member of the
class.  Returns none when the bracket is unclosed, in which case the opening
bracket is matched literally. -/
def splitBracket (cs : List Char) : Option (Bool × List Char × List Char) :=
  match cs with
  | '!' :: rest =>
    match rest with
    | ']' :: rest2 =>
      match scanClose rest2 with
      | none => none
      | some (content, after) => some (true, ']' :: content, after)
    | _ =>
      match scanClose rest with
      | none => none
      | some (content, after) => some (true, content, after)
  | ']' :: rest =>
    match scanClose rest with
    | none => none
    | some (content, after) => some (false, ']' :: content, after)
  | _ =>
    match scanClose cs with
    | none => none
    | some (content, after) => some (false, content, after)

/-- Membership of a character in a glob character class: a dash between two
characters denotes an inclusive range, elsewhere the dash is literal. -/
def matchClassItems : List Char → Char → Bool
  | [], _ => false
  | a :: '-' :: b :: rest, c => (a ≤ c && c ≤ b) || matchClassItems rest c
  | a :: rest, c => (a == c) || matchClassItems rest c

/-- Fuel-bounded glob matcher of pattern characters against string
characters: a star matches any sequence, a question mark any single
character, bracket expressions as in matchClassItems, any other character
itself.  Every recursive call strictly decreases the combined length of
pattern and string, so fuel exceeding that sum is never exhausted. -/
def globMatchF : Nat → List Char → List Char → Bool
  | 0, _, _ => false
  | fuel + 1, pat, s =>
    match pat with
    | [] => s.isEmpty
    | '*' :: p =>
      globMatchF fuel p s ||
        (match s with
         | [] => false
         | _ :: s2 => globMatchF fuel ('*' :: p) s2)
    | '?' :: p =>
      (match s with
       | [] => false
       | _ :: s2 => globMatchF fuel p s2)
    | '[' :: p =>
      (match splitBracket p with
       | none =>
         match s with
         | [] => false
         | c :: s2 => (c == '[') && globMatchF fuel p s2
       | some (neg, content, rest) =>
         match s with
         | [] => false
         | c :: s2 => (neg != matchClassItems content c) && globMatchF fuel rest s2)
    | c :: p =>
      (match s with
       | [] => false
       | d :: s2 => (c == d) && globMatchF fuel p s2)

/-- Python fnmatch.fnmatch on a POSIX system (case preserved): does the file
name match the glob pattern? -/
def fnmatch (name pattern : String) : Bool :=
  globMatchF (pattern.length + name.length + 1) pattern.data name.data

/-- Mirrors should_exclude inside UploadFile.upload_folder (Upload.py lines
604-618): a file, given by its base name and the segments of its path
relative to the root folder, is excluded when any caller-supplied pattern
matches the base name or any segment of the relative path. -/
def should_exclude (exclude_patterns : List String) (relParts : List String)
    (name : String) : Bool :=
  exclude_patterns.any (fun pattern =>
    fnmatch name pattern || relParts.any (fun part => fnmatch part pattern))

/-- File enumeration of upload_folder (Upload.py lines 620-626): each regular
file of the tree, given by its nonempty list of path segments relative to the
root (whose last segment is its base name), is kept exactly when
should_exclude rejects it. -/
def files_to_upload (exclude_patterns : List String)
    (tree : List (List String)) : List (List String) :=
  tree.filter (fun parts =>
    ! should_exclude exclude_patterns parts (parts.getLastD ""))

/-! ### Authenticated request gateway (Auth.py and model/Base.py) -/

/-- Response body of a remote call as parsed JSON: the status-code field, the
optional error-message field and the remaining fields, mirroring BaseResponse
in model/Base.py (extra fields are allowed and preserved). -/
structure Body where
  errno : Option Int
  errmsg : Option String
  extra : Dict
  deriving DecidableEq

/-- Python exception values raised during response validation. -/
inductive PyExc
  | authError (code : Int) (message : String)
  | validationError
  deriving DecidableEq

/-- BaseResponse.model_validate (model/Base.py lines 50-64): pydantic requires
the errno field to be present (its absence fails validation), and the
check_state validator raises AuthError whenever errno is non-zero. -/
def baseResponseValidate (b : Body) : Except PyExc Body :=
  match b.errno with
  | none => Except.error PyExc.validationError
  | some n =>
    if n ≠ 0 then Except.error (PyExc.authError n (b.errmsg.getD "未知错误"))
    else Except.ok b

/-- Outcome of the underlying HTTP exchange in Auth.request_json: either the
request, raise_for_status or json() step raised, or a parsed body was
obtained. -/
inductive HttpOutcome
  | netError (msg : String)
  | ok (body : Body)

/-- Result of Auth.request_json as observed by its caller. -/
inductive ReqJsonResult
  | retDump (body : Body)
  | retRaw (body : Body)
  | raised (msg : String)
  deriving DecidableEq

/-- Auth.request_json (Auth.py lines 45-73): a network, HTTP-status or JSON
parse failure raises ValueError; otherwise the body is validated as
BaseResponse and returned dumped, and when the validation raises — including
the AuthError for a non-zero errno — the except branch logs and returns the
raw parsed body as a normal value. -/
def request_json (o : HttpOutcome) : ReqJsonResult :=
  match o with
  | HttpOutcome.netError _ =>
    ReqJsonResult.raised "请求过程中发生错误，请检查日志以获取详细信息。"
  | HttpOutcome.ok b =>
    match baseResponseValidate b with
    | Except.ok parsed => ReqJsonResult.retDump parsed
    | Except.error _ => ReqJsonResult.retRaw b

/-! ### Block planning and the single-file pipeline (Upload.py, UploadFile) -/

/-- Account information consulted by the pipeline; mirrors UserInfoModel in
model/Base.py. -/
structure UserInfoModel where
  username : String
  userid : String
  isvip : Option Bool
  viptype : Option Int
  deriving DecidableEq

/-- Block-size selection of UploadFile._upload_file_multi (Upload.py lines
367-375): chosen from the account service tier and converted from MiB to
bytes; the bs argument of the method is not consulted. -/
def blockSizeMulti (userinfo : Option UserInfoModel) : Nat :=
  (match userinfo with
   | none => 4
   | some ui =>
     match ui.viptype with
     | some 1 => 16
     | some 2 => 32
     | _ => 4) * 1024 * 1024

/-- Block size of UploadFile._upload_file_loop (Upload.py line 470), the
per-file pipeline used by upload_folder: a constant 4 MiB, independent of the
account tier and of the bs argument. -/
def blockSizeLoop : Nat := 4 * 1024 * 1024

/-- Number of blocks of a file of the given size: the ceiling of
size / blockSize. -/
def blockCount (size bs : Nat) : Nat := (size + bs - 1) / bs

/-- Modelled from the spec: the function get_file_md5_blocks of utils/md5.py
is imported by Upload.py but that module is not under src/.  Per the spec
(sections 3, 4.1 and 8) the planner produces the ordered per-block hash list
of length ceil(size / blockSize), where block i covers the byte range
starting at i * blockSize.  The hash function itself stays abstract. -/
def get_file_md5_blocks (h : List Byte → String) (file : List Byte)
    (bs : Nat) : List String :=
  (List.range (blockCount file.length bs)).map
    (fun i => h ((file.drop (i * bs)).take bs))

/-- The expression os.cpu_count() or 1 (Upload.py line 411): the available
parallelism, falling back to 1 when the cpu count is unknown or zero. -/
def cpuOr1 : Option Nat → Nat
  | none => 1
  | some 0 => 1
  | some (k + 1) => k + 1

/-- Worker count before the block-count cap (Upload.py line 412): the caller
override when given, otherwise the cpu count minus one — with no lower
floor. -/
def configuredWorkers (cpuCount : Option Nat) (override : Option Int) : Int :=
  match override with
  | none => (cpuOr1 cpuCount : Int) - 1
  | some w => w

/-- Pool size handed to ThreadPoolExecutor (Upload.py line 413): the
configured worker count capped by the number of planned blocks. -/
def poolSize (cpuCount : Option Nat) (override : Option Int)
    (blocks : Nat) : Int :=
  min (configuredWorkers cpuCount override) (blocks : Int)

/-- Precreate response fields consulted by the pipeline; the status code may
be absent. -/
structure PrecreateResp where
  errno : Option Int
  uploadid : String
  deriving DecidableEq

/-- Locate-upload response: the candidate transfer endpoints.  An empty list
also stands for a missing servers field, both falsy in the source. -/
structure LocateResp where
  servers : List String
  deriving DecidableEq

/-- Block-transfer response as inspected by UploadFile.upload_part: the
echoed md5 field may be absent. -/
structure PartResp where
  md5 : Option String
  deriving DecidableEq

/-- The precreate guard of _upload_file_multi (Upload.py line 394): a missing
response or a status other than zero fails the stage. -/
def precreateFailed (r : Option PrecreateResp) : Bool :=
  match r with
  | none => true
  | some r1 => if r1.errno = some 0 then false else true

/-- The locate guard of _upload_file_multi (Upload.py line 404): a missing
response or an empty endpoint list fails the stage. -/
def locateFailed (r : Option LocateResp) : Bool :=
  match r with
  | none => true
  | some r2 => r2.servers.isEmpty

/-- The echoed hash carried by a block-transfer response, if any. -/
def echoedHash (resp : Option PartResp) : Option String :=
  match resp with
  | none => none
  | some r => r.md5

/-- Integrity check of UploadFile.upload_part (Upload.py lines 333-351): a
missing response, a missing or empty echoed md5, or an echoed md5 differing
from the precomputed hash raises; otherwise the block index is returned. -/
def upload_part_check (resp : Option PartResp) (idx : Nat)
    (expected_md5 : String) : Except String Nat :=
  match resp with
  | none => Except.error "上传分片失败"
  | some r =>
    match r.md5 with
    | none => Except.error "上传分片失败"
    | some m =>
      if m = "" then Except.error "上传分片失败"
      else if m ≠ expected_md5 then
        Except.error ("分片 " ++ toString idx ++ " 的 MD5 不一致: 预期 "
          ++ expected_md5 ++ ", 实际 " ++ m)
      else Except.ok idx

/-- Did an upload-part check raise? -/
def isErr : Except String Nat → Bool
  | Except.error _ => true
  | Except.ok _ => false

/-- The chunk-submission loop of _upload_file_multi (Upload.py lines
416-435): for each planned block hash in index order, seek to
idx * blockSize, read blockSize bytes, stop on an empty read, and otherwise
submit the triple of index, chunk and expected hash. -/
def submitPartsFrom (file : List Byte) (bs : Nat) :
    Nat → List String → List (Nat × List Byte × String)
  | _, [] => []
  | idx, expected :: rest =>
    let chunk := (file.drop (idx * bs)).take bs
    if chunk.isEmpty then []
    else (idx, chunk, expected) :: submitPartsFrom file bs (idx + 1) rest

/-- The submitted block tasks of one file, starting at index zero. -/
def submitParts (file : List Byte) (bs : Nat) (block_list : List String) :
    List (Nat × List Byte × String) :=
  submitPartsFrom file bs 0 block_list

/-- Remote calls issued by the single-file pipeline, in order. -/
inductive Call
  | precreate
  | locate
  | part (idx : Nat)
  | create
  deriving DecidableEq

/-- Outcome of _upload_file_multi as seen by its caller: a normal return
(None on a stage failure, the create response on success) or a propagated
exception. -/
inductive MultiResult
  | ret (v : Option Dict)
  | raised (msg : String)
  deriving DecidableEq

/-- A None return or a propagated exception is a file-level failure; only a
returned create response counts as success. -/
def isFailure : MultiResult → Bool
  | MultiResult.ret none => true
  | MultiResult.ret (some _) => false
  | MultiResult.raised _ => true

/-- Is the outcome a propagated exception? -/
def isRaised : MultiResult → Bool
  | MultiResult.raised _ => true
  | _ => false

/-- Inputs of one run of _upload_file_multi: machine parallelism, account
information, the caller worker override, the file contents, the abstract
per-block hash, and the remote responses of each call. -/
structure Env where
  cpuCount : Option Nat
  userinfo : Option UserInfoModel
  max_workers : Option Int
  file : List Byte
  hash : List Byte → String
  precreateResp : Option PrecreateResp
  locateResp : Option LocateResp
  partResp : Nat → Option PartResp
  createResp : Option Dict

/-- UploadFile._upload_file_multi (Upload.py lines 354-454) with its remote
calls made explicit: plan the blocks, precreate, locate an endpoint,
construct the bounded worker pool (ThreadPoolExecutor raises ValueError when
the computed size is not positive), submit every block task, print and
return None on the first block error, and otherwise finalize with create.
Returns the caller-visible outcome with the trace of remote calls. -/
def uploadFileMulti (e : Env) : MultiResult × List Call :=
  let bs := blockSizeMulti e.userinfo
  let block_list := get_file_md5_blocks e.hash e.file bs
  if precreateFailed e.precreateResp then
    (MultiResult.ret none, [Call.precreate])
  else if locateFailed e.locateResp then
    (MultiResult.ret none, [Call.precreate, Call.locate])
  else if poolSize e.cpuCount e.max_workers block_list.length ≤ 0 then
    (MultiResult.raised "max_workers must be greater than 0",
     [Call.precreate, Call.locate])
  else
    let parts := submitParts e.file bs block_list
    let calls := Call.precreate :: Call.locate
      :: parts.map (fun p => Call.part p.1)
    if parts.any (fun p => isErr (upload_part_check (e.partResp p.1) p.1 p.2.2)) then
      (MultiResult.ret none, calls)
    else
      (MultiResult.ret e.createResp, calls ++ [Call.create])

/-! ### Batch orchestration (UploadFile.upload_folder) -/

/-- One enumerated file of a batch: its local path and its remote target. -/
structure FileEntry where
  local_path : String
  remote_path : String
  deriving DecidableEq

/-- Aggregated results of upload_folder (Upload.py lines 628-653 and 738):
success and failure lists with their counters and the total file count; the
errno key is set only on the non-early-return path. -/
structure BatchResults where
  success : List (FileEntry × Dict)
  failed : List (FileEntry × String)
  success_count : Nat
  failed_count : Nat
  total : Nat
  errno : Option Int
  deriving DecidableEq

/-- Python truthiness of a per-file pipeline result: None and the empty dict
are falsy. -/
def truthyResult : Option Dict → Bool
  | none => false
  | some d => ! d.isEmpty

/-- upload_single_file (Upload.py lines 655-707): record one file outcome
under the results lock — a truthy pipeline result is appended to the success
list, a falsy one to the failed list with the message 上传返回None, and a
raised exception to the failed list with its message. -/
def upload_single_file (results : BatchResults) (entry : FileEntry)
    (outcome : Except String (Option Dict)) : BatchResults :=
  match outcome with
  | Except.ok r =>
    if truthyResult r then
      { results with
        success := results.success ++ [(entry, r.getD [])],
        success_count := results.success_count + 1 }
    else
      { results with
        failed := results.failed ++ [(entry, "上传返回None")],
        failed_count := results.failed_count + 1 }
  | Except.error e =>
    { results with
      failed := results.failed ++ [(entry, e)],
      failed_count := results.failed_count + 1 }

/-- Did the per-file pipeline produce a truthy result for this file? -/
def fileSucceeded (p : FileEntry × Except String (Option Dict)) : Bool :=
  match p.2 with
  | Except.ok r => truthyResult r
  | Except.error _ => false

/-- Recording of all file outcomes of a batch, one upload_single_file call
per file. -/
def runFold (files : List (FileEntry × Except String (Option Dict)))
    (init : BatchResults) : BatchResults :=
  files.foldl (fun r p => upload_single_file r p.1 p.2) init

/-- Batch aggregation of upload_folder: an empty enumeration returns the
all-zero result without errno (Upload.py lines 629-636); otherwise every
file task records its outcome exactly once into the shared results and errno
is set to zero at the end. -/
def upload_folder_results
    (files : List (FileEntry × Except String (Option Dict))) : BatchResults :=
  if files.isEmpty then
    { success := [], failed := [], success_count := 0, failed_count := 0,
      total := 0, errno := none }
  else
    let run := runFold files
      { success := [], failed := [], success_count := 0, failed_count := 0,
        total := files.length, errno := none }
    { run with errno := some 0 }

/-! ### Progress-counter locking (UploadFile.upload_part, lines 346-351) -/

/-- Events on the shared progress structure from the perspective of one
block task that has just verified its block. -/
inductive LockEvent
  | truthyCheck
  | acquire
  | release
  | increment
  deriving DecidableEq

/-- The progress-update events executed by upload_part after a verified
block (Upload.py lines 346-347): the source tests the truthiness of the Lock
object stored under the lock key — which is always true and does not acquire
it — and then increments the uploaded counter. -/
def uploadPartProgressEvents : List LockEvent :=
  [LockEvent.truthyCheck, LockEvent.increment]

/-- Modelled from the spec: section 5 requires the uploaded-counter increment
to happen while the mutual-exclusion lock is held, i.e. an acquire strictly
before the increment and a release after it. -/
def incrementUnderLock (trace : List LockEvent) : Bool :=
  (trace.takeWhile (fun ev => ev != LockEvent.increment)).contains
      LockEvent.acquire
    && (trace.dropWhile (fun ev => ev != LockEvent.increment)).contains
      LockEvent.release

/-! ### Helper lemmas -/

theorem blockCount_zero {bs : Nat} (hbs : 0 < bs) : blockCount 0 bs = 0 := by
  unfold blockCount
  simp [Nat.div_eq_of_lt (show bs - 1 < bs by omega)]

theorem blockCount_pos_eq {n bs : Nat} (hn : 0 < n) (hbs : 0 < bs) :
    blockCount n bs = (n - 1) / bs + 1 := by
  unfold blockCount
  have h1 : n + bs - 1 = (n - 1) + bs := by omega
  rw [h1, Nat.add_div_right _ hbs]

theorem mul_lt_of_lt_blockCount {n bs k : Nat} (hbs : 0 < bs)
    (hk : k < blockCount n bs) : k * bs < n := by
  rcases Nat.eq_zero_or_pos n with hn | hn
  · subst hn
    rw [blockCount_zero hbs] at hk
    exact absurd hk (Nat.not_lt_zero k)
  · rw [blockCount_pos_eq hn hbs] at hk
    have h1 : k ≤ (n - 1) / bs := by omega
    have h2 : k * bs ≤ (n - 1) / bs * bs := Nat.mul_le_mul_right bs h1
    have h3 : (n - 1) / bs * bs ≤ n - 1 := Nat.div_mul_le_self (n - 1) bs
    omega

theorem chunk_nonempty {file : List Byte} {bs k : Nat} (hbs : 0 < bs)
    (hk : k * bs < file.length) :
    ((file.drop (k * bs)).take bs).isEmpty = false := by
  have hdrop : (file.drop (k * bs)).length = file.length - k * bs :=
    List.length_drop _ _
  have hne : file.drop (k * bs) ≠ [] := by
    intro h
    rw [h] at hdrop
    simp at hdrop
    omega
  rcases hd : file.drop (k * bs) with _ | ⟨a, t⟩
  · exact absurd hd hne
  · rcases bs with _ | b
    · exact absurd hbs (by omega)
    · simp [List.take]

theorem submitPartsFrom_range (file : List Byte) (bs : Nat) (g : Nat → String) :
    ∀ (n idx : Nat),
      (∀ k, k < n → ((file.drop ((idx + k) * bs)).take bs).isEmpty = false) →
      submitPartsFrom file bs idx ((List.range n).map (fun k => g (idx + k))) =
        (List.range n).map (fun k =>
          (idx + k, (file.drop ((idx + k) * bs)).take bs, g (idx + k))) := by
  intro n
  induction n with
  | zero => intro idx h; simp [submitPartsFrom]
  | succ m ih =>
    intro idx h
    rw [List.range_succ_eq_map]
    simp only [List.map_cons, List.map_map]
    have h0 : ((file.drop ((idx + 0) * bs)).take bs).isEmpty = false :=
      h 0 (Nat.succ_pos m)
    simp only [Nat.add_zero] at h0
    unfold submitPartsFrom
    simp only [h0, Bool.false_eq_true, if_false]
    have hshift : ∀ k : Nat, idx + Nat.succ k = (idx + 1) + k := by omega
    have hcomp1 :
        ((fun k => g (idx + k)) ∘ Nat.succ) = fun k => g ((idx + 1) + k) := by
      funext k
      simp [Function.comp, hshift k]
    have hcomp2 :
        ((fun k => (idx + k, (file.drop ((idx + k) * bs)).take bs, g (idx + k)))
          ∘ Nat.succ) =
        fun k => ((idx + 1) + k, (file.drop (((idx + 1) + k) * bs)).take bs,
          g ((idx + 1) + k)) := by
      funext k
      simp [Function.comp, hshift k]
    rw [hcomp1, hcomp2]
    rw [ih (idx + 1) (fun k hk => by
      have := h (k + 1) (by omega)
      rwa [show idx + (k + 1) = (idx + 1) + k by omega] at this)]
    simp [Nat.add_zero]

theorem blockCount_drop {n bs : Nat} (hn : 0 < n) (hbs : 0 < bs) :
    blockCount n bs = blockCount (n - bs) bs + 1 := by
  rcases le_or_lt n bs with h | h
  · have h1 : n - bs = 0 := by omega
    rw [h1, blockCount_zero hbs, blockCount_pos_eq hn hbs]
    have h2 : (n - 1) / bs = 0 := Nat.div_eq_of_lt (by omega)
    omega
  · rw [blockCount_pos_eq hn hbs, blockCount_pos_eq (by omega : 0 < n - bs) hbs]
    have h1 : n - 1 = (n - bs - 1) + bs := by omega
    rw [h1, Nat.add_div_right _ hbs]

theorem chunks_flatten {bs : Nat} (hbs : 0 < bs) :
    ∀ (file : List Byte),
      ((List.range (blockCount file.length bs)).map
        (fun i => (file.drop (i * bs)).take bs)).flatten = file := by
  have main : ∀ (n : Nat) (file : List Byte), file.length = n →
      ((List.range (blockCount file.length bs)).map
        (fun i => (file.drop (i * bs)).take bs)).flatten = file := by
    intro n
    induction n using Nat.strong_induction_on with
    | _ n ih =>
      intro file hlen
      rcases file with _ | ⟨a, t⟩
      · simp [blockCount_zero hbs]
      · have hpos : 0 < (a :: t).length := by simp
        rw [blockCount_drop hpos hbs, List.range_succ_eq_map]
        simp only [List.map_cons, List.map_map, List.flatten_cons]
        have hzero : ((a :: t).drop (0 * bs)).take bs = (a :: t).take bs := by
          simp
        have hsucc :
            ((fun i => ((a :: t).drop (i * bs)).take bs) ∘ Nat.succ) =
            fun i => (((a :: t).drop bs).drop (i * bs)).take bs := by
          funext i
          simp [Function.comp, List.drop_drop, Nat.succ_mul, Nat.add_comm]
        rw [hzero, hsucc]
        have hdl : ((a :: t).drop bs).length = (a :: t).length - bs :=
          List.length_drop _ _
        have hrec :
            ((List.range (blockCount ((a :: t).length - bs) bs)).map
              (fun i => (((a :: t).drop bs).drop (i * bs)).take bs)).flatten =
            (a :: t).drop bs := by
          rw [← hdl]
          exact ih ((a :: t).drop bs).length
            (by rw [hdl]; omega) ((a :: t).drop bs) rfl
        rw [hrec, List.take_append_drop]
  intro file
  exact main file.length file rfl

theorem drop_take_window (l : List Byte) (m k : Nat) :
    (l.drop m).take k = (l.take (min l.length (m + k))).drop m := by
  rcases le_or_lt (m + k) l.length with h | h
  · rw [min_eq_right h, List.drop_take]
    congr 1
    omega
  · rw [min_eq_left (by omega : l.length ≤ m + k), List.take_length]
    have hlen : (l.drop m).length ≤ k := by
      rw [List.length_drop]
      omega
    exact List.take_of_length_le hlen

/-! ### Claim theorems -/

/-- C3 counterexample: a response body carrying the non-zero status code 2 is
returned by request_json as a normal value — the AuthError raised during
validation is caught and the raw body handed back — contradicting the claim
that a body with non-zero status is never returned normally and instead
fails with a remote error. -/
theorem requestJson_nonzero_returned_cex :
    request_json
        (HttpOutcome.ok { errno := some 2, errmsg := some "error", extra := [] })
      = ReqJsonResult.retRaw { errno := some 2, errmsg := some "error", extra := [] }
    ∧ baseResponseValidate { errno := some 2, errmsg := some "error", extra := [] }
      = Except.error (PyExc.authError 2 "error") :=
  ⟨rfl, rfl⟩

/-- C3 amended: request_json raises ValueError on a network, HTTP-status or
JSON-parse failure; a body with status zero is validated and returned; and a
body whose status code is non-zero (or which lacks the status field) makes
validation raise, the exception is caught, and the raw body is returned as a
normal value rather than propagated as an error. -/
theorem requestJson_behavior :
    (∀ msg, request_json (HttpOutcome.netError msg)
      = ReqJsonResult.raised "请求过程中发生错误，请检查日志以获取详细信息。")
    ∧ (∀ b : Body, b.errno = some 0 →
        request_json (HttpOutcome.ok b) = ReqJsonResult.retDump b)
    ∧ (∀ b : Body, b.errno ≠ some 0 →
        request_json (HttpOutcome.ok b) = ReqJsonResult.retRaw b) := by
  refine ⟨fun msg => rfl, fun b hb => ?_, fun b hb => ?_⟩
  · simp [request_json, baseResponseValidate, hb]
  · rcases hcase : b.errno with _ | n
    · simp [request_json, baseResponseValidate, hcase]
    · have hn : n ≠ 0 := by
        intro h
        exact hb (by rw [hcase, h])
      simp [request_json, baseResponseValidate, hcase, hn]

/-- C3 witness: the amended behavior applied to a concrete zero-status body. -/
theorem requestJson_behavior_witness :
    request_json (HttpOutcome.ok { errno := some 0, errmsg := none, extra := [] })
      = ReqJsonResult.retDump { errno := some 0, errmsg := none, extra := [] } :=
  requestJson_behavior.2.1 { errno := some 0, errmsg := none, extra := [] } rfl

/-- C4 counterexample: on a machine reporting a single CPU and with no caller
override, the default worker count is 0 — not the claimed minimum of 1 — and
the computed pool size for a 5-block file is 0, not at least 1. -/
theorem poolSize_zero_cex :
    configuredWorkers (some 1) none = 0
    ∧ poolSize (some 1) none 5 = 0
    ∧ ¬ 1 ≤ poolSize (some 1) none 5 := by
  decide

/-- C4 amended: the pool is sized to min(configuredWorkers, blockCount),
where the default configuredWorkers is the available parallelism minus one
with no minimum-1 floor; the computed size is at least 1 only under the
additional assumptions of at least two CPUs and at least one block (a
single-CPU machine yields 0, which ThreadPoolExecutor rejects). -/
theorem poolSize_formula (c : Option Nat) (k : Nat) :
    poolSize c none k = min ((cpuOr1 c : Int) - 1) (k : Int)
    ∧ (∀ w : Int, poolSize c (some w) k = min w (k : Int))
    ∧ (2 ≤ cpuOr1 c → 1 ≤ k → 1 ≤ poolSize c none k) := by
  refine ⟨rfl, fun w => rfl, fun h2 hk => ?_⟩
  show 1 ≤ min ((cpuOr1 c : Int) - 1) (k : Int)
  rw [le_min_iff]
  constructor <;> omega

/-- C4 witness: four CPUs and three blocks give a positive pool size. -/
theorem poolSize_formula_witness : 1 ≤ poolSize (some 4) none 3 :=
  (poolSize_formula (some 4) 3).2.2 (by decide) (by decide)

/-- C5 counterexample: the batch/folder per-file pipeline always uses a
4 MiB block size, while for a tier-2 account the claim demands the 32 MiB
size that only the single-file pipeline selects — the two differ. -/
theorem blockSizeLoop_cex :
    blockSizeLoop = 4 * 1024 * 1024
    ∧ blockSizeMulti (some ⟨"u", "1", some true, some 2⟩) = 32 * 1024 * 1024
    ∧ blockSizeLoop ≠ blockSizeMulti (some ⟨"u", "1", some true, some 2⟩) := by
  decide

/-- C5 amended: only the single-file pipeline selects the block size from
the account service tier — absent user info or an unrecognised tier gives
4 MiB, tier 1 gives 16 MiB, tier 2 gives 32 MiB, the bs argument being
ignored — while the batch/folder pipeline always uses 4 MiB regardless of
tier. -/
theorem blockSize_selection :
    blockSizeMulti none = 4 * 1024 * 1024
    ∧ (∀ ui : UserInfoModel, ui.viptype = some 1 →
        blockSizeMulti (some ui) = 16 * 1024 * 1024)
    ∧ (∀ ui : UserInfoModel, ui.viptype = some 2 →
        blockSizeMulti (some ui) = 32 * 1024 * 1024)
    ∧ (∀ ui : UserInfoModel, ui.viptype ≠ some 1 → ui.viptype ≠ some 2 →
        blockSizeMulti (some ui) = 4 * 1024 * 1024)
    ∧ blockSizeLoop = 4 * 1024 * 1024 := by
  refine ⟨rfl, fun ui h => ?_, fun ui h => ?_, fun ui h1 h2 => ?_, rfl⟩
  · simp [blockSizeMulti, h]
  · simp [blockSizeMulti, h]
  · rcases ui with ⟨un, uid, uv, vt⟩
    simp only [blockSizeMulti] at h1 h2 ⊢

/-- C5 witness: a concrete tier-1 account gets the 16 MiB block size in the
single-file pipeline. -/
theorem blockSize_selection_witness :
    blockSizeMulti (some ⟨"u", "1", none, some 1⟩) = 16 * 1024 * 1024 :=
  blockSize_selection.2.1 ⟨"u", "1", none, some 1⟩ rfl

/-- C7: a file is excluded exactly when some caller-supplied pattern
glob-matches its base name or some segment of its path relative to the root;
and on the tree of a.tmp, node_modules/x.js and keep.txt with the patterns
*.tmp and node_modules, only keep.txt is enumerated. -/
theorem shouldExclude_iff (patterns relParts : List String) (name : String) :
    (should_exclude patterns relParts name = true
      ↔ ∃ pattern ∈ patterns, fnmatch name pattern = true
          ∨ ∃ part ∈ relParts, fnmatch part pattern = true)
    ∧ files_to_upload ["*.tmp", "node_modules"]
        [["a.tmp"], ["node_modules", "x.js"], ["keep.txt"]] = [["keep.txt"]] := by
  constructor
  · simp [should_exclude, List.any_eq_true]
  · decide

/-- C7 witness: the exclusion equivalence applied to a concrete match of the
base name. -/
theorem shouldExclude_iff_witness :
    should_exclude ["*.tmp"] [] "a.tmp" = true :=
  ((shouldExclude_iff ["*.tmp"] [] "a.tmp").1).mpr
    ⟨"*.tmp", by decide, Or.inl (by decide)⟩

/-- C9 evaluation: the progress update executed by upload_part after a
verified block performs the increment but never acquires the lock — the
source only tests the truthiness of the Lock object, which is always true —
so the uploaded counter is not mutated under mutual exclusion as the claim
requires. -/
theorem progressIncrement_lockNotAcquired :
    LockEvent.increment ∈ uploadPartProgressEvents
    ∧ LockEvent.acquire ∉ uploadPartProgressEvents
    ∧ incrementUnderLock uploadPartProgressEvents = false := by
  decide

theorem blockSizeMulti_pos (u : Option UserInfoModel) : 0 < blockSizeMulti u := by
  unfold blockSizeMulti
  split
  · decide
  · split <;> decide

/-- C6: for every file and positive block size, the chunk-submission loop
submits, for each block index i below the planned block count and in index
order with no early stop, exactly the byte range of the file from
i * blockSize to min(size, (i + 1) * blockSize); and the concatenation of
the submitted chunks in index order is the original file. -/
theorem submitParts_covers_file (file : List Byte) (bs : Nat)
    (h : List Byte → String) (hbs : 0 < bs) :
    submitParts file bs (get_file_md5_blocks h file bs) =
      (List.range (blockCount file.length bs)).map
        (fun i => (i, (file.drop (i * bs)).take bs,
          h ((file.drop (i * bs)).take bs)))
    ∧ (∀ i : Nat, (file.drop (i * bs)).take bs =
        (file.take (min file.length ((i + 1) * bs))).drop (i * bs))
    ∧ ((submitParts file bs (get_file_md5_blocks h file bs)).map
        (fun p => p.2.1)).flatten = file := by
  have hmain : submitParts file bs (get_file_md5_blocks h file bs) =
      (List.range (blockCount file.length bs)).map
        (fun i => (i, (file.drop (i * bs)).take bs,
          h ((file.drop (i * bs)).take bs))) := by
    unfold submitParts get_file_md5_blocks
    have hcond : ∀ k, k < blockCount file.length bs →
        ((file.drop ((0 + k) * bs)).take bs).isEmpty = false := by
      intro k hk
      rw [Nat.zero_add]
      exact chunk_nonempty hbs (mul_lt_of_lt_blockCount hbs hk)
    have hg := submitPartsFrom_range file bs
      (fun k => h ((file.drop (k * bs)).take bs))
      (blockCount file.length bs) 0 hcond
    simpa using hg
  refine ⟨hmain, fun i => ?_, ?_⟩
  · have hw := drop_take_window file (i * bs) bs
    rwa [show i * bs + bs = (i + 1) * bs by ring] at hw
  · rw [hmain, List.map_map]
    exact chunks_flatten hbs file

/-- C6 witness: a three-byte file with block size two is split into the
ranges of bytes 0-1 and byte 2, whose concatenation is the file. -/
theorem submitParts_covers_file_witness :
    0 < 2
    ∧ ((submitParts [10, 11, 12] 2
        (get_file_md5_blocks (fun c => toString c.length) [10, 11, 12] 2)).map
        (fun p => p.2.1)).flatten = [10, 11, 12] :=
  ⟨by decide,
   (submitParts_covers_file [10, 11, 12] 2 (fun c => toString c.length)
     (by decide)).2.2⟩

/-- Environment of the C10 witness: a zero-byte file whose precreate and
locate calls succeed. -/
def envEmptyFile : Env where
  cpuCount := some 8
  userinfo := none
  max_workers := none
  file := []
  hash := fun _ => "aa"
  precreateResp := some { errno := some 0, uploadid := "uid" }
  locateResp := some { servers := ["s1"] }
  partResp := fun _ => none
  createResp := none

/-- C10: for a zero-byte file the planner yields an empty block list, so
once the precreate and locate calls have succeeded the computed pool size
min(workers, 0) is not positive and the pool construction raises ValueError;
the call trace ends at locate and the create call is never made. -/
theorem emptyFile_poolRaises (e : Env) (hfile : e.file = [])
    (hpre : precreateFailed e.precreateResp = false)
    (hloc : locateFailed e.locateResp = false) :
    uploadFileMulti e
      = (MultiResult.raised "max_workers must be greater than 0",
         [Call.precreate, Call.locate]) := by
  have hlen : (get_file_md5_blocks e.hash e.file
      (blockSizeMulti e.userinfo)).length = 0 := by
    unfold get_file_md5_blocks
    rw [hfile]
    simp [blockCount_zero (blockSizeMulti_pos e.userinfo)]
  have hpool : poolSize e.cpuCount e.max_workers
      (get_file_md5_blocks e.hash e.file
        (blockSizeMulti e.userinfo)).length ≤ 0 := by
    rw [hlen]
    exact min_le_right _ _
  simp [uploadFileMulti, hpre, hloc, hpool]

/-- C10 witness: the concrete zero-byte-file environment raises at pool
construction with only precreate and locate in the trace. -/
theorem emptyFile_poolRaises_witness :
    uploadFileMulti envEmptyFile
      = (MultiResult.raised "max_workers must be greater than 0",
         [Call.precreate, Call.locate]) :=
  emptyFile_poolRaises envEmptyFile rfl (by decide) (by decide)

/-- C1: in a single-file upload, whenever a submitted block's transfer
response lacks an echoed hash or echoes a hash different from the planned
hash of that index, the block transfer raises, the create (finalize) call
never appears in the call trace, and the file-level outcome is a failure. -/
theorem blockError_noFinalize (e : Env) (i : Nat) (chunk : List Byte)
    (expected : String)
    (hmem : (i, chunk, expected) ∈
      submitParts e.file (blockSizeMulti e.userinfo)
        (get_file_md5_blocks e.hash e.file (blockSizeMulti e.userinfo)))
    (hbad : echoedHash (e.partResp i) ≠ some expected) :
    (∃ msg, upload_part_check (e.partResp i) i expected = Except.error msg)
    ∧ Call.create ∉ (uploadFileMulti e).2
    ∧ isFailure (uploadFileMulti e).1 = true := by
  have herr : ∃ msg,
      upload_part_check (e.partResp i) i expected = Except.error msg := by
    rcases hr : e.partResp i with _ | r
    · exact ⟨"上传分片失败", rfl⟩
    · rcases hm : r.md5 with _ | m
      · exact ⟨"上传分片失败", by simp [upload_part_check, hm]⟩
      · by_cases hemp : m = ""
        · exact ⟨"上传分片失败", by simp [upload_part_check, hm, hemp]⟩
        · have hne : m ≠ expected := by
            intro hcontra
            apply hbad
            simp [echoedHash, hr, hm, hcontra]
          exact ⟨"分片 " ++ toString i ++ " 的 MD5 不一致: 预期 "
              ++ expected ++ ", 实际 " ++ m,
            by simp [upload_part_check, hm, hemp, hne]⟩
  refine ⟨herr, ?_⟩
  by_cases h1 : precreateFailed e.precreateResp = true
  · simp [uploadFileMulti, h1, isFailure]
  · by_cases h2 : locateFailed e.locateResp = true
    · simp [uploadFileMulti, h1, h2, isFailure]
    · by_cases h3 : poolSize e.cpuCount e.max_workers
          (get_file_md5_blocks e.hash e.file
            (blockSizeMulti e.userinfo)).length ≤ 0
      · simp [uploadFileMulti, h1, h2, h3, isFailure]
      · have hany : (submitParts e.file (blockSizeMulti e.userinfo)
            (get_file_md5_blocks e.hash e.file
              (blockSizeMulti e.userinfo))).any
            (fun p => isErr (upload_part_check (e.partResp p.1) p.1 p.2.2))
            = true := by
          rw [List.any_eq_true]
          refine ⟨(i, chunk, expected), hmem, ?_⟩
          rcases herr with ⟨msg, hmsg⟩
          simp [isErr, hmsg]
        simp [uploadFileMulti, h1, h2, h3, hany, isFailure]

/-- Environment of the C1 witness: a one-block file whose transfer response
echoes a wrong hash. -/
def envBadBlock : Env where
  cpuCount := some 4
  userinfo := none
  max_workers := none
  file := [7]
  hash := fun _ => "aa"
  precreateResp := some { errno := some 0, uploadid := "uid" }
  locateResp := some { servers := ["s1"] }
  partResp := fun _ => some { md5 := some "bb" }
  createResp := some [("errno", "0")]

/-- C1 witness: the concrete wrong-echo environment never reaches create and
fails at the file level. -/
theorem blockError_noFinalize_witness :
    Call.create ∉ (uploadFileMulti envBadBlock).2
    ∧ isFailure (uploadFileMulti envBadBlock).1 = true :=
  ⟨(blockError_noFinalize envBadBlock 0 [7] "aa" (by decide) (by decide)).2.1,
   (blockError_noFinalize envBadBlock 0 [7] "aa" (by decide) (by decide)).2.2⟩

/-- Environment of the C2 counterexample: the precreate call is rejected
with status 2 while everything downstream would succeed. -/
def envPrecreateRejected : Env where
  cpuCount := some 4
  userinfo := none
  max_workers := none
  file := [7]
  hash := fun _ => "aa"
  precreateResp := some { errno := some 2, uploadid := "" }
  locateResp := some { servers := ["s1"] }
  partResp := fun _ => some { md5 := some "aa" }
  createResp := some [("errno", "0")]

/-- C2 counterexample: with the precreate call rejected (status 2), the
single-file pipeline returns None as a normal value — nothing is raised to
the caller — contradicting the claim that every per-file pipeline error
propagates to the caller as a raised error. -/
theorem stageError_notRaised_cex :
    (uploadFileMulti envPrecreateRejected).1 = MultiResult.ret none
    ∧ isRaised (uploadFileMulti envPrecreateRejected).1 = false := by
  decide

/-- C2 amended: each per-file stage error enumerated by the claim — a
missing or rejected precreate response, an empty transfer-endpoint set, or
(with a constructible pool) a failing block transfer — makes the single-file
pipeline print a diagnostic and return None as a normal value, never
reaching create; such errors are not raised to the caller. -/
theorem stageError_returnsNone (e : Env)
    (herr : precreateFailed e.precreateResp = true
      ∨ locateFailed e.locateResp = true
      ∨ (0 < poolSize e.cpuCount e.max_workers
            (get_file_md5_blocks e.hash e.file
              (blockSizeMulti e.userinfo)).length
         ∧ (submitParts e.file (blockSizeMulti e.userinfo)
              (get_file_md5_blocks e.hash e.file
                (blockSizeMulti e.userinfo))).any
             (fun p => isErr (upload_part_check (e.partResp p.1) p.1 p.2.2))
             = true)) :
    (uploadFileMulti e).1 = MultiResult.ret none
    ∧ Call.create ∉ (uploadFileMulti e).2 := by
  by_cases h1 : precreateFailed e.precreateResp = true
  · simp [uploadFileMulti, h1]
  · by_cases h2 : locateFailed e.locateResp = true
    · simp [uploadFileMulti, h1, h2]
    · rcases herr with h | h | ⟨hp, ha⟩
      · exact absurd h h1
      · exact absurd h h2
      · have h3 : ¬ poolSize e.cpuCount e.max_workers
            (get_file_md5_blocks e.hash e.file
              (blockSizeMulti e.userinfo)).length ≤ 0 := by omega
        simp [uploadFileMulti, h1, h2, h3, ha]

/-- C2 witness: the amended behavior at the concrete rejected-precreate
environment. -/
theorem stageError_returnsNone_witness :
    (uploadFileMulti envPrecreateRejected).1 = MultiResult.ret none
    ∧ Call.create ∉ (uploadFileMulti envPrecreateRejected).2 :=
  stageError_returnsNone envPrecreateRejected (Or.inl (by decide))

theorem length_filter_split {α : Type} (q : α → Bool) (l : List α) :
    (l.filter q).length + (l.filter (fun a => ! q a)).length = l.length := by
  induction l with
  | nil => rfl
  | cons a t ih =>
    by_cases h : q a = true <;> simp [List.filter_cons, h] <;> omega

theorem upload_single_file_total (r : BatchResults)
    (p : FileEntry × Except String (Option Dict)) :
    (upload_single_file r p.1 p.2).total = r.total := by
  obtain ⟨a, o⟩ := p
  rcases o with e | v
  · rfl
  · by_cases h : truthyResult v = true <;> simp [upload_single_file, h]

theorem upload_single_file_success_fst (r : BatchResults)
    (p : FileEntry × Except String (Option Dict)) :
    (upload_single_file r p.1 p.2).success.map Prod.fst
      = r.success.map Prod.fst
        ++ (if fileSucceeded p then [p.1] else []) := by
  obtain ⟨a, o⟩ := p
  rcases o with e | v
  · simp [upload_single_file, fileSucceeded]
  · by_cases h : truthyResult v = true <;>
      simp [upload_single_file, fileSucceeded, h]

theorem upload_single_file_failed_fst (r : BatchResults)
    (p : FileEntry × Except String (Option Dict)) :
    (upload_single_file r p.1 p.2).failed.map Prod.fst
      = r.failed.map Prod.fst
        ++ (if fileSucceeded p then [] else [p.1]) := by
  obtain ⟨a, o⟩ := p
  rcases o with e | v
  · simp [upload_single_file, fileSucceeded]
  · by_cases h : truthyResult v = true <;>
      simp [upload_single_file, fileSucceeded, h]

theorem upload_single_file_scount (r : BatchResults)
    (p : FileEntry × Except String (Option Dict)) :
    (upload_single_file r p.1 p.2).success_count
      = r.success_count + (if fileSucceeded p then 1 else 0) := by
  obtain ⟨a, o⟩ := p
  rcases o with e | v
  · simp [upload_single_file, fileSucceeded]
  · by_cases h : truthyResult v = true <;>
      simp [upload_single_file, fileSucceeded, h]

theorem upload_single_file_fcount (r : BatchResults)
    (p : FileEntry × Except String (Option Dict)) :
    (upload_single_file r p.1 p.2).failed_count
      = r.failed_count + (if fileSucceeded p then 0 else 1) := by
  obtain ⟨a, o⟩ := p
  rcases o with e | v
  · simp [upload_single_file, fileSucceeded]
  · by_cases h : truthyResult v = true <;>
      simp [upload_single_file, fileSucceeded, h]

theorem runFold_spec (files : List (FileEntry × Except String (Option Dict))) :
    ∀ init : BatchResults,
      ((runFold files init).success.map Prod.fst
        = init.success.map Prod.fst ++ (files.filter fileSucceeded).map Prod.fst)
      ∧ ((runFold files init).failed.map Prod.fst
        = init.failed.map Prod.fst
          ++ (files.filter (fun p => ! fileSucceeded p)).map Prod.fst)
      ∧ (runFold files init).success_count
        = init.success_count + (files.filter fileSucceeded).length
      ∧ (runFold files init).failed_count
        = init.failed_count + (files.filter (fun p => ! fileSucceeded p)).length
      ∧ (runFold files init).total = init.total := by
  induction files with
  | nil => intro init; simp [runFold]
  | cons p rest ih =>
    intro init
    have hstep : runFold (p :: rest) init
        = runFold rest (upload_single_file init p.1 p.2) := rfl
    obtain ⟨ihs, ihf, ihsc, ihfc, iht⟩ := ih (upload_single_file init p.1 p.2)
    rw [hstep]
    refine ⟨?_, ?_, ?_, ?_, ?_⟩
    · rw [ihs, upload_single_file_success_fst, List.filter_cons]
      by_cases h : fileSucceeded p = true <;> simp [h]
    · rw [ihf, upload_single_file_failed_fst, List.filter_cons]
      by_cases h : fileSucceeded p = true <;> simp [h]
    · rw [ihsc, upload_single_file_scount, List.filter_cons]
      by_cases h : fileSucceeded p = true
      · simp [h]
        omega
      · simp [h]
    · rw [ihfc, upload_single_file_fcount, List.filter_cons]
      by_cases h : fileSucceeded p = true
      · simp [h]
      · simp [h]
        omega
    · rw [iht, upload_single_file_total]

/-- C8: for every batch, the returned accounting satisfies
success_count + failed_count = N and total = N; the success and failed lists
partition the enumerated files in order, each file landing in exactly the
list matching its outcome, so one file's failure removes no other file; and
when exactly one file fails, the failed list contains exactly that file and
the success list the other N − 1 files in order. -/
theorem batchAccounting (files : List (FileEntry × Except String (Option Dict))) :
    (upload_folder_results files).success_count
        + (upload_folder_results files).failed_count = files.length
    ∧ (upload_folder_results files).total = files.length
    ∧ (upload_folder_results files).success.map Prod.fst
        = (files.filter fileSucceeded).map Prod.fst
    ∧ (upload_folder_results files).failed.map Prod.fst
        = (files.filter (fun p => ! fileSucceeded p)).map Prod.fst
    ∧ (∀ (A B : List (FileEntry × Except String (Option Dict)))
        (K : FileEntry × Except String (Option Dict)),
        files = A ++ K :: B → fileSucceeded K = false →
        (∀ q ∈ A, fileSucceeded q = true) →
        (∀ q ∈ B, fileSucceeded q = true) →
        (upload_folder_results files).failed.map Prod.fst = [K.1]
        ∧ (upload_folder_results files).success.map Prod.fst
            = (A ++ B).map Prod.fst) := by
  have hbase :
      (upload_folder_results files).success_count
          + (upload_folder_results files).failed_count = files.length
      ∧ (upload_folder_results files).total = files.length
      ∧ (upload_folder_results files).success.map Prod.fst
          = (files.filter fileSucceeded).map Prod.fst
      ∧ (upload_folder_results files).failed.map Prod.fst
          = (files.filter (fun p => ! fileSucceeded p)).map Prod.fst := by
    unfold upload_folder_results
    by_cases hemp : files.isEmpty = true
    · have hnil : files = [] := List.isEmpty_iff.mp hemp
      subst hnil
      simp
    · obtain ⟨hs, hf, hsc, hfc, ht⟩ := runFold_spec files
        { success := [], failed := [], success_count := 0, failed_count := 0,
          total := files.length, errno := none }
      simp only [hemp, Bool.false_eq_true, if_false]
      refine ⟨?_, ?_, ?_, ?_⟩
      · simp only [hsc, hfc]
        have := length_filter_split fileSucceeded files
        omega
      · exact ht
      · simpa using hs
      · simpa using hf
  refine ⟨hbase.1, hbase.2.1, hbase.2.2.1, hbase.2.2.2, ?_⟩
  intro A B K hsplit hK hA hB
  have hfailA : A.filter (fun p => ! fileSucceeded p) = [] := by
    rw [List.filter_eq_nil_iff]
    intro q hq
    simp [hA q hq]
  have hfailB : B.filter (fun p => ! fileSucceeded p) = [] := by
    rw [List.filter_eq_nil_iff]
    intro q hq
    simp [hB q hq]
  have hsuccA : A.filter fileSucceeded = A :=
    List.filter_eq_self.mpr hA
  have hsuccB : B.filter fileSucceeded = B :=
    List.filter_eq_self.mpr hB
  constructor
  · rw [hbase.2.2.2, hsplit, List.filter_append, List.filter_cons]
    simp [hK, hfailA, hfailB]
  · rw [hbase.2.2.1, hsplit, List.filter_append, List.filter_cons]
    simp [hK, hsuccA, hsuccB]

/-- Entries of the C8 witness batch. -/
def entryA : FileEntry := ⟨"a.txt", "/r/a.txt"⟩

/-- Entries of the C8 witness batch. -/
def entryK : FileEntry := ⟨"k.bin", "/r/k.bin"⟩

/-- Entries of the C8 witness batch. -/
def entryB : FileEntry := ⟨"b.txt", "/r/b.txt"⟩

/-- The C8 witness batch: three files of which exactly the middle one fails
integrity verification. -/
def batchSample : List (FileEntry × Except String (Option Dict)) :=
  [(entryA, Except.ok (some [("errno", "0")])),
   (entryK, Except.error "分片 0 的 MD5 不一致"),
   (entryB, Except.ok (some [("errno", "0")]))]

/-- C8 witness: in the concrete three-file batch with one engineered
failure, the failed list holds exactly the failing file and the success list
the other two. -/
theorem batchAccounting_witness :
    (upload_folder_results batchSample).failed.map Prod.fst = [entryK]
    ∧ (upload_folder_results batchSample).success.map Prod.fst
        = [entryA, entryB] := by
  have h := (batchAccounting batchSample).2.2.2.2
    [(entryA, Except.ok (some [("errno", "0")]))]
    [(entryB, Except.ok (some [("errno", "0")]))]
    (entryK, Except.error "分片 0 的 MD5 不一致")
    rfl (by decide) (by decide) (by decide)
  refine ⟨h.1, ?_⟩
  rw [h.2]
  rfl

end CPanBaidu
